import Mathlib

/-!
Verification of the notificationPusher arbitration core.

Shallow embedding of `src/mcp/utils.py`, `src/mcp/api.py` and
`src/mcp/tools/spotify.py`.  Python's in-memory `STATE` dict becomes an
association list `StateMap`; timestamps (`datetime.utcnow().isoformat()`)
become an abstract `Nat` parameter `now`; the external Spotify client and
the Pushover transport become an oracle record `SpotifyEnv` describing the
outcome of each external call; handlers additionally return a trace of the
observable side effects (activity-log writes, gateway calls, queue
appends) in the order the Python code performs them.
-/

/-- A queued pending-action record, mirroring the dict literal appended by
`utils.add_to_queue` (`src/mcp/utils.py:38-45`).  Note the Python field is
literally called `name` and the handlers pass the resource *kind*
("playlist" / "track" / "radio_seed") in that position. -/
structure PendingRecord where
  uri : String
  name : String
  requested_by : String
  added_at : Nat
deriving DecidableEq, Repr

/-- The `last_played` snapshot set by `utils.set_last_played`
(`src/mcp/utils.py:47-49`). -/
structure LastPlayed where
  track : String
  timestamp : Nat
deriving DecidableEq, Repr

/-- One per-user state record, mirroring the default dict created by
`utils.get_user_state` (`src/mcp/utils.py:31-34`). -/
structure UserState where
  queue : List PendingRecord
  last_played : Option LastPlayed
  online : Bool
deriving DecidableEq, Repr

/-- The default state `{"queue": [], "last_played": None, "online": False}`. -/
def initUserState : UserState :=
  { queue := [], last_played := none, online := false }

/-- The module-level `STATE` dict of `src/mcp/utils.py:29`, as an
association list keyed by user name. -/
abbrev StateMap := List (String × UserState)

/-- Reading a user's state; absent keys behave as the lazily-created
default, as in `utils.get_user_state`. -/
def lookupState : StateMap → String → UserState
  | [], _ => initUserState
  | (k, v) :: rest, u => if k = u then v else lookupState rest u

/-- Replacing (or inserting) a user's state, the effect of mutating the
dict entry in place. -/
def setState : StateMap → String → UserState → StateMap
  | [], u, st => [(u, st)]
  | (k, v) :: rest, u, st =>
      if k = u then (u, st) :: rest else (k, v) :: setState rest u st

/-- Python truthiness of an `Optional[str]`: `None` and `""` are falsy. -/
def optTruthy : Option String → Bool
  | some s => s ≠ ""
  | none => false

/-- Python `str.strip()` with no argument: drop leading and trailing
whitespace (character-level model of the call in `identify_user`). -/
def pyStrip (s : String) : String :=
  ⟨((s.data.dropWhile Char.isWhitespace).reverse.dropWhile
      Char.isWhitespace).reverse⟩

/-- Python `s[:6]`: the first six characters of `s` (or all of `s` when it
is shorter). -/
def pyTake6 (s : String) : String :=
  ⟨s.data.take 6⟩

/-- Split a character list at commas (helper for `pySplitComma`). -/
def splitCommaAux : List Char → List Char → List (List Char)
  | [], acc => [acc.reverse]
  | c :: rest, acc =>
      if c = ',' then acc.reverse :: splitCommaAux rest []
      else splitCommaAux rest (c :: acc)

/-- Python `s.split(",")`: comma-separated pieces; the empty string yields
`[""]`, as in Python. -/
def pySplitComma (s : String) : List String :=
  (splitCommaAux s.data []).map String.mk

/-- A string wrapped in single quotes, as Python `repr` renders it. -/
def pyQuote (s : String) : String :=
  String.singleton (Char.ofNat 39) ++ s ++ String.singleton (Char.ofNat 39)

/-- Python `str`/`repr` of a list of strings, e.g. `['a', 'b']` (used in
the `/add_to_playlist` log-details f-string). -/
def pyReprStrList (xs : List String) : String :=
  "[" ++ String.intercalate ", " (xs.map pyQuote) ++ "]"

/-- `utils.identify_user` (`src/mcp/utils.py:21-26`): owner iff both key
and configured secret are truthy and their `strip()`s coincide; otherwise
a `User(<first 6 chars>)` guest for a truthy key, else `"Anonymous"`. -/
def identify_user (api_key : Option String) (known_owner_key : String) : String :=
  match api_key with
  | some k =>
      if k ≠ "" ∧ known_owner_key ≠ "" ∧ pyStrip k = pyStrip known_owner_key then
        "Aidan"
      else if k ≠ "" then
        "User(" ++ pyTake6 k ++ ")"
      else
        "Anonymous"
  | none => "Anonymous"

/-- `utils.add_to_queue` (`src/mcp/utils.py:36-45`): append one record to
the user's queue.  The `now` argument stands for
`datetime.utcnow().isoformat()`. -/
def add_to_queue (m : StateMap) (user track_uri track_name requester : String)
    (now : Nat) : StateMap :=
  let st := lookupState m user
  setState m user
    { st with
      queue := st.queue ++
        [{ uri := track_uri, name := track_name, requested_by := requester,
           added_at := now }] }

/-- `utils.set_last_played` (`src/mcp/utils.py:47-49`). -/
def set_last_played (m : StateMap) (user track_name : String) (now : Nat) :
    StateMap :=
  let st := lookupState m user
  setState m user
    { st with last_played := some { track := track_name, timestamp := now } }

/-- `utils.set_online` (`src/mcp/utils.py:51-53`). -/
def set_online (m : StateMap) (user : String) (online : Bool) : StateMap :=
  let st := lookupState m user
  setState m user { st with online := online }

/-- One row of the sqlite `activity_logs` table, restricted to the columns
the core writes meaningfully (`src/mcp/utils.py:98-113`); the timestamp is
the abstract `Nat` clock. -/
structure LogEntry where
  timestamp : Nat
  user : String
  action : String
  details : String
deriving DecidableEq, Repr

/-- The sqlite logging backend: its stored rows plus a flag saying whether
the store is currently failing (connection/insert raising). -/
structure LogBackend where
  failing : Bool
  rows : List LogEntry
deriving DecidableEq, Repr

/-- `utils.log_to_sqlite` (`src/mcp/utils.py:85-116`): inserts one row, or
raises (modelled as `Except.error`) when the store is failing. -/
def log_to_sqlite (b : LogBackend) (ts : Nat) (user action details : String) :
    Except String LogBackend :=
  if b.failing then
    Except.error "db unavailable"
  else
    Except.ok { b with rows := b.rows ++ [⟨ts, user, action, details⟩] }

/-- `utils.log_action` (`src/mcp/utils.py:118-125`): try the sqlite write
and swallow any exception, so the caller always continues. -/
def log_action (b : LogBackend) (ts : Nat) (user action details : String) :
    LogBackend :=
  match log_to_sqlite b ts user action details with
  | Except.ok b2 => b2
  | Except.error _ => b

/-- The `{name, artists, uri}` triple the `/search` and `/recommend`
handlers project out of each raw track item (`src/mcp/api.py:143-146` and
`167-170`); raw items live beyond the gateway boundary, so tracks are
modeled already in projected form. -/
structure TrackInfo where
  name : String
  artists : List String
  uri : String
deriving DecidableEq, Repr

/-- Result value of a wrapped Spotify gateway call
(`src/mcp/tools/spotify.py`): the JSON-ish dicts the wrappers return.
Opaque upstream objects (a created playlist) are carried as strings. -/
inductive GwResult where
  | okPlay (status uri : String)
  | okStatus (status : String)
  | okRadio (seed : String) (played : List String)
  | okVolume (status : String) (level : Nat)
  | okCreated (playlist : String)
  | okAdded (playlist_id : String) (uris : List String)
  | error (msg : String)
deriving DecidableEq, Repr

/-- Oracle describing the outcomes of all external calls during one
request: Spotify client availability, the exception (if any) raised by the
playback-control call, the recommendation fetch, the currently-playing
answer, OAuth data, the Pushover transport, and the `/logs` sqlite read. -/
structure SpotifyEnv where
  clientAvailable : Bool
  playbackErr : Option String
  recsResult : Except String (List String)
  currentSong : Option String × Option String
  authUrl : String
  tokenResult : Except String (Option Nat)
  notifyResult : Except String String
  dbExists : Bool
  logQueryResult : Except String (List LogEntry)
  searchItems : Except String (List TrackInfo)
  recommendTracks : Except String (List TrackInfo)
  userPlaylists : Except String (List String)
  playlistTracksResult : Except String (List String)
  userProfile : Except String String
  playlistErr : Option String
  createdPlaylist : String
deriving Repr

namespace Spotify

/-- `spotify.play_playlist` (`src/mcp/tools/spotify.py:77-86`). -/
def play_playlist (env : SpotifyEnv) (playlist_uri : String) : GwResult :=
  if !env.clientAvailable then GwResult.error "not authenticated"
  else
    match env.playbackErr with
    | some e => GwResult.error e
    | none => GwResult.okPlay "playing playlist" playlist_uri

/-- `spotify.play_track` (`src/mcp/tools/spotify.py:88-97`). -/
def play_track (env : SpotifyEnv) (track_uri : String) : GwResult :=
  if !env.clientAvailable then GwResult.error "not authenticated"
  else
    match env.playbackErr with
    | some e => GwResult.error e
    | none => GwResult.okPlay "playing track" track_uri

/-- `spotify.play_song_radio` (`src/mcp/tools/spotify.py:99-113`): fetch
recommendations seeded by the song, fail on an empty list, then start
playback of the recommended uris (returning the first three). -/
def play_song_radio (env : SpotifyEnv) (song_uri : String) : GwResult :=
  if !env.clientAvailable then GwResult.error "not authenticated"
  else
    match env.recsResult with
    | Except.error e => GwResult.error e
    | Except.ok uris =>
        if uris = [] then GwResult.error "no recommendations found"
        else
          match env.playbackErr with
          | some e => GwResult.error e
          | none => GwResult.okRadio song_uri (uris.take 3)

/-- `spotify.resume_playback` (`src/mcp/tools/spotify.py:126-135`). -/
def resume_playback (env : SpotifyEnv) : GwResult :=
  if !env.clientAvailable then GwResult.error "not authenticated"
  else
    match env.playbackErr with
    | some e => GwResult.error e
    | none => GwResult.okStatus "resumed"

/-- `spotify.pause_playback` (`src/mcp/tools/spotify.py:137-146`). -/
def pause_playback (env : SpotifyEnv) : GwResult :=
  if !env.clientAvailable then GwResult.error "not authenticated"
  else
    match env.playbackErr with
    | some e => GwResult.error e
    | none => GwResult.okStatus "paused"

/-- `spotify.previous_track` (`src/mcp/tools/spotify.py:148-157`). -/
def previous_track (env : SpotifyEnv) : GwResult :=
  if !env.clientAvailable then GwResult.error "not authenticated"
  else
    match env.playbackErr with
    | some e => GwResult.error e
    | none => GwResult.okStatus "previous"

/-- `spotify.set_volume` (`src/mcp/tools/spotify.py:159-168`). -/
def set_volume (env : SpotifyEnv) (level : Nat) : GwResult :=
  if !env.clientAvailable then GwResult.error "not authenticated"
  else
    match env.playbackErr with
    | some e => GwResult.error e
    | none => GwResult.okVolume "volume set" level

/-- `spotify.search_tracks` (`src/mcp/tools/spotify.py:170-179`): `none`
when there is no client or the search raises, otherwise the result items
(already in projected `TrackInfo` form). -/
def search_tracks (env : SpotifyEnv) : Option (List TrackInfo) :=
  if !env.clientAvailable then none
  else
    match env.searchItems with
    | Except.error _ => none
    | Except.ok ts => some ts

/-- `spotify.get_recommendations` (`src/mcp/tools/spotify.py:181-197`):
`[]` when there is no client or the call raises, otherwise the tracks.
The seed arguments only shape the upstream request the oracle answers
for. -/
def get_recommendations (env : SpotifyEnv) : List TrackInfo :=
  if !env.clientAvailable then []
  else
    match env.recommendTracks with
    | Except.error _ => []
    | Except.ok ts => ts

/-- `spotify.create_playlist` (`src/mcp/tools/spotify.py:199-211`): the
created playlist object (opaque) or an error dict. -/
def create_playlist (env : SpotifyEnv) : GwResult :=
  if !env.clientAvailable then GwResult.error "not authenticated"
  else
    match env.playlistErr with
    | some e => GwResult.error e
    | none => GwResult.okCreated env.createdPlaylist

/-- `spotify.add_tracks_to_playlist` (`src/mcp/tools/spotify.py:213-222`). -/
def add_tracks_to_playlist (env : SpotifyEnv) (playlist_id : String)
    (uris : List String) : GwResult :=
  if !env.clientAvailable then GwResult.error "not authenticated"
  else
    match env.playlistErr with
    | some e => GwResult.error e
    | none => GwResult.okAdded playlist_id uris

/-- `spotify.get_user_playlists` (`src/mcp/tools/spotify.py:224-233`):
`[]` when there is no client or the call raises, otherwise the items
(opaque; the limit shapes the upstream request the oracle answers for). -/
def get_user_playlists (env : SpotifyEnv) : List String :=
  if !env.clientAvailable then []
  else
    match env.userPlaylists with
    | Except.error _ => []
    | Except.ok items => items

/-- `spotify.get_playlist_tracks` (`src/mcp/tools/spotify.py:235-244`). -/
def get_playlist_tracks (env : SpotifyEnv) : List String :=
  if !env.clientAvailable then []
  else
    match env.playlistTracksResult with
    | Except.error _ => []
    | Except.ok items => items

/-- `spotify.get_user_profile` (`src/mcp/tools/spotify.py:246-254`):
`none` models the empty dict returned when there is no client or the call
raises. -/
def get_user_profile (env : SpotifyEnv) : Option String :=
  if !env.clientAvailable then none
  else
    match env.userProfile with
    | Except.error _ => none
    | Except.ok p => some p

end Spotify

/-- Observable side effects of a handler, in program order: an activity-log
write (`log_action` call site), a Streaming Service Gateway call
(`spotify.*` call site), a queue append (`add_to_queue` call site), or a
push-notification send. -/
inductive Event where
  | logWrite (user action details : String)
  | gatewayCall (op arg : String)
  | queueAppend (owner : String) (rec : PendingRecord)
  | pushCall (title msg : String)
deriving DecidableEq, Repr

/-- The structured body a handler returns (or the exception it surfaces). -/
inductive Resp where
  | status (s : String)
  | plainText (body : String)
  | notifySent (message_sent result : String)
  | authUrl (url : String)
  | authDone (expires_in : Option Nat)
  | songInfo (song artist : String)
  | message (m : String)
  | queued (message : String) (queue_length : Nat) (queue : List PendingRecord)
  | gateway (r : GwResult)
  | err (msg : String)
  | httpError (code : Nat) (detail : String)
  | logs (rows : List LogEntry)
  | tracksFound (tracks : List TrackInfo)
  | recommendations (tracks : List TrackInfo)
  | playlistsList (items : List String)
  | playlistTracksList (items : List String)
  | profile (p : Option String)
  | raised (msg : String)
deriving DecidableEq, Repr

/-- Outcome of one handler: the new `STATE` map, the response, and the
trace of side effects in the order the Python code performs them. -/
structure HOut where
  state : StateMap
  resp : Resp
  trace : List Event
deriving DecidableEq, Repr

namespace Api

/-- Handler for `GET /` (`src/mcp/api.py:30-34`). -/
def root (secret : String) (m : StateMap) (x_api_key : Option String) : HOut :=
  let user := identify_user x_api_key secret
  { state := m,
    resp := Resp.status "MCP API is running",
    trace := [Event.logWrite user "health_check" "root endpoint hit"] }

/-- Handler for `GET /notify` (`src/mcp/api.py:37-42`): log, then hand the
message to the Pushover transport; `send_notification` raises on transport
failure and the handler does not catch it. -/
def notify (env : SpotifyEnv) (secret : String) (m : StateMap) (msg : String)
    (x_api_key : Option String) : HOut :=
  let user := identify_user x_api_key secret
  let tr := [Event.logWrite user "notify" msg,
             Event.pushCall "MCP Notification" msg]
  match env.notifyResult with
  | Except.ok r => { state := m, resp := Resp.notifySent msg r, trace := tr }
  | Except.error e => { state := m, resp := Resp.raised e, trace := tr }

/-- Handler for `GET /auth/start` (`src/mcp/api.py:44-50`): owner-only; a
non-owner gets an error body and nothing else happens.  Note there is no
`log_action` call in this handler. -/
def auth_start (env : SpotifyEnv) (secret : String) (m : StateMap)
    (x_api_key : Option String) : HOut :=
  let user := identify_user x_api_key secret
  if user ≠ "Aidan" then
    { state := m, resp := Resp.err "only Aidan can initiate auth", trace := [] }
  else
    { state := m, resp := Resp.authUrl env.authUrl,
      trace := [Event.gatewayCall "get_auth_url" ""] }

/-- Handler for `GET /auth/callback` (`src/mcp/api.py:52-59`): owner-only
(403 otherwise); exchanges the code for a token.  No `log_action` call. -/
def auth_callback (env : SpotifyEnv) (secret : String) (m : StateMap)
    (code : String) (x_api_key : Option String) : HOut :=
  let user := identify_user x_api_key secret
  if user ≠ "Aidan" then
    { state := m, resp := Resp.httpError 403 "forbidden", trace := [] }
  else
    match env.tokenResult with
    | Except.ok expires =>
        { state := m, resp := Resp.authDone expires,
          trace := [Event.gatewayCall "handle_callback" code] }
    | Except.error e =>
        { state := m, resp := Resp.raised e,
          trace := [Event.gatewayCall "handle_callback" code] }

/-- Handler for `GET /song` (`src/mcp/api.py:61-72`): ask the gateway for
the current song, log, and — only when a song is playing and the caller is
the owner — update `last_played` and `online` before answering. -/
def current_song (env : SpotifyEnv) (secret : String) (m : StateMap)
    (x_api_key : Option String) (now : Nat) : HOut :=
  let user := identify_user x_api_key secret
  let song := env.currentSong.1
  let artist := env.currentSong.2
  let tr := [Event.gatewayCall "get_current_song" "",
             Event.logWrite user "current_song"
               (song.getD "None" ++ " - " ++ artist.getD "None")]
  if optTruthy song ∧ optTruthy artist then
    if user = "Aidan" then
      let m1 := set_last_played m "Aidan" (song.getD "") now
      let m2 := set_online m1 "Aidan" true
      { state := m2, resp := Resp.songInfo (song.getD "") (artist.getD ""),
        trace := tr }
    else
      { state := m, resp := Resp.songInfo (song.getD "") (artist.getD ""),
        trace := tr }
  else
    { state := m, resp := Resp.message "No song currently playing", trace := tr }

/-- Handler for `GET /play` (`src/mcp/api.py:75-88`): log first; a
non-owner's request is appended to Aidan's queue and answered with the
queue snapshot, while the owner's request goes to the gateway. -/
def play (env : SpotifyEnv) (secret : String) (m : StateMap) (playlist : String)
    (x_api_key : Option String) (now : Nat) : HOut :=
  let user := identify_user x_api_key secret
  if user ≠ "Aidan" then
    let m1 := add_to_queue m "Aidan" playlist "playlist" user now
    let st := lookupState m1 "Aidan"
    { state := m1,
      resp := Resp.queued (user ++ " requested playlist. Added to Aidan's queue.")
        st.queue.length st.queue,
      trace := [Event.logWrite user "play_playlist" playlist,
                Event.queueAppend "Aidan"
                  { uri := playlist, name := "playlist", requested_by := user,
                    added_at := now }] }
  else
    { state := m,
      resp := Resp.gateway (Spotify.play_playlist env playlist),
      trace := [Event.logWrite user "play_playlist" playlist,
                Event.gatewayCall "play_playlist" playlist] }

/-- Handler for `GET /play_song_radio` (`src/mcp/api.py:91-103`). -/
def play_song_radio (env : SpotifyEnv) (secret : String) (m : StateMap)
    (song : String) (x_api_key : Option String) (now : Nat) : HOut :=
  let user := identify_user x_api_key secret
  if user ≠ "Aidan" then
    let m1 := add_to_queue m "Aidan" song "radio_seed" user now
    let st := lookupState m1 "Aidan"
    { state := m1,
      resp := Resp.queued (user ++ " requested radio. Added to Aidan's queue.")
        st.queue.length st.queue,
      trace := [Event.logWrite user "play_song_radio" song,
                Event.queueAppend "Aidan"
                  { uri := song, name := "radio_seed", requested_by := user,
                    added_at := now }] }
  else
    { state := m,
      resp := Resp.gateway (Spotify.play_song_radio env song),
      trace := [Event.logWrite user "play_song_radio" song,
                Event.gatewayCall "play_song_radio" song] }

/-- Handler for `GET /play_track` (`src/mcp/api.py:113-125`). -/
def play_track (env : SpotifyEnv) (secret : String) (m : StateMap)
    (track : String) (x_api_key : Option String) (now : Nat) : HOut :=
  let user := identify_user x_api_key secret
  if user ≠ "Aidan" then
    let m1 := add_to_queue m "Aidan" track "track" user now
    let st := lookupState m1 "Aidan"
    { state := m1,
      resp := Resp.queued (user ++ " requested track. Added to Aidan's queue.")
        st.queue.length st.queue,
      trace := [Event.logWrite user "play_track" track,
                Event.queueAppend "Aidan"
                  { uri := track, name := "track", requested_by := user,
                    added_at := now }] }
  else
    { state := m,
      resp := Resp.gateway (Spotify.play_track env track),
      trace := [Event.logWrite user "play_track" track,
                Event.gatewayCall "play_track" track] }

/-- Handler for `GET /resume` (`src/mcp/api.py:128-132`). -/
def resume (env : SpotifyEnv) (secret : String) (m : StateMap)
    (x_api_key : Option String) : HOut :=
  let user := identify_user x_api_key secret
  { state := m,
    resp := Resp.gateway (Spotify.resume_playback env),
    trace := [Event.logWrite user "resume_playback" "",
              Event.gatewayCall "resume_playback" ""] }

/-- Handler for `GET /pause` (`src/mcp/api.py:190-194`). -/
def pause (env : SpotifyEnv) (secret : String) (m : StateMap)
    (x_api_key : Option String) : HOut :=
  let user := identify_user x_api_key secret
  { state := m,
    resp := Resp.gateway (Spotify.pause_playback env),
    trace := [Event.logWrite user "pause_playback" "",
              Event.gatewayCall "pause_playback" ""] }

/-- Handler for `GET /logs` (`src/mcp/api.py:231-257`): owner-only (403
otherwise); reads recent rows from the sqlite store, `{"logs": []}` when
the db file is missing, `{"error": ...}` when the read raises.  The
`limit` is applied inside the SQL query the oracle answers for.  No
`log_action` call. -/
def fetch_logs (env : SpotifyEnv) (secret : String) (m : StateMap)
    (limit : Nat) (x_api_key : Option String) : HOut :=
  let user := identify_user x_api_key secret
  if user ≠ "Aidan" then
    { state := m, resp := Resp.httpError 403 "forbidden", trace := [] }
  else if !env.dbExists then
    { state := m, resp := Resp.logs [], trace := [] }
  else
    match env.logQueryResult with
    | Except.ok rows => { state := m, resp := Resp.logs (rows.take limit), trace := [] }
    | Except.error e => { state := m, resp := Resp.err e, trace := [] }

/-- Handler for `HEAD /` (`src/mcp/api.py:25-27`): static empty 200, no
identity resolution, no logging. -/
def head_root (m : StateMap) : HOut :=
  { state := m, resp := Resp.plainText "", trace := [] }

/-- Handler for `GET /next` (`src/mcp/api.py:106-110`): logs, then
evaluates `spotify.next_track()`; `src/mcp/tools/spotify.py` defines
`play_next_track` but no `next_track`, so the attribute lookup raises
`AttributeError` after the log write and before any gateway call. -/
def next_track (secret : String) (m : StateMap) (x_api_key : Option String) :
    HOut :=
  let user := identify_user x_api_key secret
  { state := m,
    resp := Resp.raised
      "AttributeError: module mcp.tools.spotify has no attribute next_track",
    trace := [Event.logWrite user "next_track" ""] }

/-- Handler for `GET /search` (`src/mcp/api.py:135-147`): logs, searches;
`None` from the wrapper becomes an empty track list, otherwise the items
are returned projected to `{name, artists, uri}`. -/
def search (env : SpotifyEnv) (secret : String) (m : StateMap)
    (query : String) (x_api_key : Option String) : HOut :=
  let user := identify_user x_api_key secret
  let tr := [Event.logWrite user "search" query,
             Event.gatewayCall "search_tracks" query]
  match Spotify.search_tracks env with
  | none => { state := m, resp := Resp.tracksFound [], trace := tr }
  | some ts => { state := m, resp := Resp.tracksFound ts, trace := tr }

/-- Handler for `GET /recommend` (`src/mcp/api.py:150-171`): logs the
three optional seed strings (`None` rendered as Python renders it) and
returns the recommended tracks projected to `{name, artists, uri}`. -/
def recommend (env : SpotifyEnv) (secret : String) (m : StateMap)
    (seed_tracks seed_artists seed_genres : Option String) (_limit : Nat)
    (x_api_key : Option String) : HOut :=
  let user := identify_user x_api_key secret
  let details := seed_tracks.getD "None" ++ "|" ++ seed_artists.getD "None" ++
    "|" ++ seed_genres.getD "None"
  { state := m,
    resp := Resp.recommendations (Spotify.get_recommendations env),
    trace := [Event.logWrite user "recommend" details,
              Event.gatewayCall "get_recommendations" details] }

/-- Handler for `GET /create_playlist` (`src/mcp/api.py:174-178`): logs,
delegates; the `or` fallback body is unreachable because the wrapper
always returns a non-empty dict (playlist object or error dict). -/
def create_playlist (env : SpotifyEnv) (secret : String) (m : StateMap)
    (name _description : String) (_pub : Bool) (x_api_key : Option String) :
    HOut :=
  let user := identify_user x_api_key secret
  { state := m,
    resp := Resp.gateway (Spotify.create_playlist env),
    trace := [Event.logWrite user "create_playlist" name,
              Event.gatewayCall "create_playlist" name] }

/-- Handler for `GET /add_to_playlist` (`src/mcp/api.py:181-187`): splits
the comma-separated uris, strips each and drops empties, logs
`"<playlist_id> <- <uris repr>"`, then delegates; the `or` fallback body
is unreachable as in `create_playlist`. -/
def add_to_playlist (env : SpotifyEnv) (secret : String) (m : StateMap)
    (playlist_id track_uris : String) (x_api_key : Option String) : HOut :=
  let user := identify_user x_api_key secret
  let uris := ((pySplitComma track_uris).map pyStrip).filter (fun u => u ≠ "")
  { state := m,
    resp := Resp.gateway (Spotify.add_tracks_to_playlist env playlist_id uris),
    trace := [Event.logWrite user "add_to_playlist"
                (playlist_id ++ " <- " ++ pyReprStrList uris),
              Event.gatewayCall "add_tracks_to_playlist" playlist_id] }

/-- Handler for `GET /previous` (`src/mcp/api.py:197-201`). -/
def previous (env : SpotifyEnv) (secret : String) (m : StateMap)
    (x_api_key : Option String) : HOut :=
  let user := identify_user x_api_key secret
  { state := m,
    resp := Resp.gateway (Spotify.previous_track env),
    trace := [Event.logWrite user "previous_track" "",
              Event.gatewayCall "previous_track" ""] }

/-- Handler for `GET /volume` (`src/mcp/api.py:204-208`). -/
def volume (env : SpotifyEnv) (secret : String) (m : StateMap) (level : Nat)
    (x_api_key : Option String) : HOut :=
  let user := identify_user x_api_key secret
  { state := m,
    resp := Resp.gateway (Spotify.set_volume env level),
    trace := [Event.logWrite user "set_volume" (toString level),
              Event.gatewayCall "set_volume" (toString level)] }

/-- Handler for `GET /me` (`src/mcp/api.py:211-215`). -/
def me (env : SpotifyEnv) (secret : String) (m : StateMap)
    (x_api_key : Option String) : HOut :=
  let user := identify_user x_api_key secret
  { state := m,
    resp := Resp.profile (Spotify.get_user_profile env),
    trace := [Event.logWrite user "get_profile" "",
              Event.gatewayCall "get_user_profile" ""] }

/-- Handler for `GET /playlists` (`src/mcp/api.py:218-222`). -/
def playlists (env : SpotifyEnv) (secret : String) (m : StateMap)
    (_limit : Nat) (x_api_key : Option String) : HOut :=
  let user := identify_user x_api_key secret
  { state := m,
    resp := Resp.playlistsList (Spotify.get_user_playlists env),
    trace := [Event.logWrite user "list_playlists" "",
              Event.gatewayCall "get_user_playlists" ""] }

/-- Handler for `GET /playlist_tracks` (`src/mcp/api.py:225-229`). -/
def playlist_tracks (env : SpotifyEnv) (secret : String) (m : StateMap)
    (playlist_id : String) (x_api_key : Option String) : HOut :=
  let user := identify_user x_api_key secret
  { state := m,
    resp := Resp.playlistTracksList (Spotify.get_playlist_tracks env),
    trace := [Event.logWrite user "playlist_tracks" playlist_id,
              Event.gatewayCall "get_playlist_tracks" playlist_id] }

end Api

/-- Is the event an activity-log write? -/
def isLogEv : Event → Bool
  | Event.logWrite _ _ _ => true
  | _ => false

/-- Is the event a Streaming Service Gateway call? -/
def isGatewayEv : Event → Bool
  | Event.gatewayCall _ _ => true
  | _ => false

/-- Is the event a queue append? -/
def isQueueEv : Event → Bool
  | Event.queueAppend _ _ => true
  | _ => false

/-- Is the event the primary side effect of a mutating playback request
(queue append for a guest, gateway call for the owner)? -/
def isPrimaryEv (e : Event) : Bool :=
  isGatewayEv e || isQueueEv e

/-- Number of activity-log writes in a trace. -/
def logCount (t : List Event) : Nat :=
  t.countP isLogEv

/-- Number of gateway calls in a trace. -/
def gatewayCount (t : List Event) : Nat :=
  t.countP isGatewayEv

/-- Number of queue appends in a trace. -/
def queueCount (t : List Event) : Nat :=
  t.countP isQueueEv

/-- Does the primary side effect of a trace happen before its activity-log
write?  True when the first primary event's index is below the first log
write's index (vacuously true when either is absent). -/
def primary_precedes_log (t : List Event) : Bool :=
  match t.findIdx? isPrimaryEv, t.findIdx? isLogEv with
  | some i, some j => decide (i < j)
  | _, _ => true

/-- One inbound HTTP request to a modeled endpoint, with its
endpoint-specific arguments. -/
inductive Request where
  | headRoot
  | root
  | notify (msg : String)
  | authStart
  | authCallback (code : String)
  | song
  | play (playlist : String)
  | playSongRadio (song : String)
  | nextTrack
  | playTrack (track : String)
  | resume
  | search (query : String)
  | recommend (seed_tracks seed_artists seed_genres : Option String) (limit : Nat)
  | createPlaylist (name description : String) (pub : Bool)
  | addToPlaylist (playlist_id track_uris : String)
  | pause
  | previous
  | volume (level : Nat)
  | me
  | playlists (limit : Nat)
  | playlistTracks (playlist_id : String)
  | logs (limit : Nat)
deriving DecidableEq, Repr

/-- Route one request to its handler, as FastAPI does. -/
def dispatch (env : SpotifyEnv) (secret : String) (m : StateMap)
    (req : Request) (x_api_key : Option String) (now : Nat) : HOut :=
  match req with
  | Request.headRoot => Api.head_root m
  | Request.root => Api.root secret m x_api_key
  | Request.notify msg => Api.notify env secret m msg x_api_key
  | Request.authStart => Api.auth_start env secret m x_api_key
  | Request.authCallback code => Api.auth_callback env secret m code x_api_key
  | Request.song => Api.current_song env secret m x_api_key now
  | Request.play playlist => Api.play env secret m playlist x_api_key now
  | Request.playSongRadio song => Api.play_song_radio env secret m song x_api_key now
  | Request.nextTrack => Api.next_track secret m x_api_key
  | Request.playTrack track => Api.play_track env secret m track x_api_key now
  | Request.resume => Api.resume env secret m x_api_key
  | Request.search query => Api.search env secret m query x_api_key
  | Request.recommend st sa sg limit => Api.recommend env secret m st sa sg limit x_api_key
  | Request.createPlaylist name description pub =>
      Api.create_playlist env secret m name description pub x_api_key
  | Request.addToPlaylist pid uris => Api.add_to_playlist env secret m pid uris x_api_key
  | Request.pause => Api.pause env secret m x_api_key
  | Request.previous => Api.previous env secret m x_api_key
  | Request.volume level => Api.volume env secret m level x_api_key
  | Request.me => Api.me env secret m x_api_key
  | Request.playlists limit => Api.playlists env secret m limit x_api_key
  | Request.playlistTracks pid => Api.playlist_tracks env secret m pid x_api_key
  | Request.logs limit => Api.fetch_logs env secret m limit x_api_key

/-- Replay the log writes of a trace against the sqlite backend, each via
`log_action` (the swallow-and-continue wrapper). -/
def applyTrace (ts : Nat) : LogBackend → List Event → LogBackend
  | b, [] => b
  | b, Event.logWrite u a d :: rest => applyTrace ts (log_action b ts u a d) rest
  | b, _ :: rest => applyTrace ts b rest

/-- A full request: dispatch to the handler, then run its log writes
against the sqlite backend.  Returns the backend, the `STATE` map and the
response. -/
def handleRequest (env : SpotifyEnv) (secret : String) (b : LogBackend)
    (m : StateMap) (req : Request) (x_api_key : Option String) (now : Nat) :
    LogBackend × StateMap × Resp :=
  let o := dispatch env secret m req x_api_key now
  (applyTrace now b o.trace, o.state, o.resp)

/-- A mutating playback request kind with its resource uri:
`/play`, `/play_track` or `/play_song_radio`. -/
inductive PlayReq where
  | playlist (uri : String)
  | track (uri : String)
  | radio (uri : String)
deriving DecidableEq, Repr

/-- One mutating playback call: the request, the caller's credential
header, and the arrival timestamp. -/
structure MutCall where
  req : PlayReq
  key : Option String
  now : Nat
deriving DecidableEq, Repr

/-- Route one mutating playback call to its handler. -/
def handleMut (env : SpotifyEnv) (secret : String) (m : StateMap)
    (c : MutCall) : HOut :=
  match c.req with
  | PlayReq.playlist u => Api.play env secret m u c.key c.now
  | PlayReq.track u => Api.play_track env secret m u c.key c.now
  | PlayReq.radio u => Api.play_song_radio env secret m u c.key c.now

/-- The pending record a guest call produces. -/
def mutRecord (secret : String) (c : MutCall) : PendingRecord :=
  match c.req with
  | PlayReq.playlist u =>
      { uri := u, name := "playlist",
        requested_by := identify_user c.key secret, added_at := c.now }
  | PlayReq.track u =>
      { uri := u, name := "track",
        requested_by := identify_user c.key secret, added_at := c.now }
  | PlayReq.radio u =>
      { uri := u, name := "radio_seed",
        requested_by := identify_user c.key secret, added_at := c.now }

/-- The human-readable message a queued guest call is answered with. -/
def mutMsg (secret : String) (c : MutCall) : String :=
  match c.req with
  | PlayReq.playlist _ =>
      identify_user c.key secret ++ " requested playlist. Added to Aidan's queue."
  | PlayReq.track _ =>
      identify_user c.key secret ++ " requested track. Added to Aidan's queue."
  | PlayReq.radio _ =>
      identify_user c.key secret ++ " requested radio. Added to Aidan's queue."

/-- The gateway result an owner call returns verbatim. -/
def mutGateway (env : SpotifyEnv) (c : MutCall) : GwResult :=
  match c.req with
  | PlayReq.playlist u => Spotify.play_playlist env u
  | PlayReq.track u => Spotify.play_track env u
  | PlayReq.radio u => Spotify.play_song_radio env u

/-- Process a sequence of mutating playback calls in arrival order,
collecting each call's outcome. -/
def runSeq (env : SpotifyEnv) (secret : String) :
    StateMap → List MutCall → StateMap × List HOut
  | m, [] => (m, [])
  | m, c :: cs =>
      let o := handleMut env secret m c
      let rest := runSeq env secret o.state cs
      (rest.1, o :: rest.2)

/-- A concrete oracle used by the closed witness theorems: client
available, playback succeeding, a song playing. -/
def env0 : SpotifyEnv :=
  { clientAvailable := true, playbackErr := none,
    recsResult := Except.ok ["u1", "u2"],
    currentSong := (some "SongA", some "ArtistB"),
    authUrl := "https://auth.example", tokenResult := Except.ok (some 3600),
    notifyResult := Except.ok "ok", dbExists := false,
    logQueryResult := Except.ok [],
    searchItems := Except.ok [], recommendTracks := Except.ok [],
    userPlaylists := Except.ok [], playlistTracksResult := Except.ok [],
    userProfile := Except.ok "profile", playlistErr := none,
    createdPlaylist := "playlist" }

/-- Concrete interleaving for the FIFO witness: guest A, guest B, guest A. -/
def csW : List MutCall :=
  [{ req := PlayReq.track "R1", key := some "guestA", now := 1 },
   { req := PlayReq.playlist "R2", key := some "guestB", now := 2 },
   { req := PlayReq.track "R3", key := some "guestA", now := 3 }]

theorem lookupState_setState_same (m : StateMap) (u : String) (st : UserState) :
    lookupState (setState m u st) u = st := by
  induction m with
  | nil => simp [setState, lookupState]
  | cons kv rest ih =>
      obtain ⟨k, v⟩ := kv
      by_cases h : k = u
      · simp [setState, h, lookupState]
      · simp [setState, h, lookupState, ih]

theorem lookupState_setState_ne (m : StateMap) (u v : String) (st : UserState)
    (h : u ≠ v) : lookupState (setState m u st) v = lookupState m v := by
  induction m with
  | nil => simp [setState, lookupState, h]
  | cons kv rest ih =>
      obtain ⟨k, w⟩ := kv
      by_cases hk : k = u
      · subst hk; simp [setState, lookupState, h, ih]
      · simp [setState, hk, lookupState, ih]

theorem lookupState_add_to_queue (m : StateMap) (u a b r : String) (now : Nat) :
    lookupState (add_to_queue m u a b r now) u =
      { lookupState m u with
        queue := (lookupState m u).queue ++
          [{ uri := a, name := b, requested_by := r, added_at := now }] } := by
  simp [add_to_queue, lookupState_setState_same]

theorem lookupState_set_last_played (m : StateMap) (u t : String) (now : Nat) :
    lookupState (set_last_played m u t now) u =
      { lookupState m u with last_played := some { track := t, timestamp := now } } := by
  simp [set_last_played, lookupState_setState_same]

theorem lookupState_set_online (m : StateMap) (u : String) (b : Bool) :
    lookupState (set_online m u b) u =
      { lookupState m u with online := b } := by
  simp [set_online, lookupState_setState_same]

/-- No guest display label collides with the owner name: the `User(...)`
string is longer than `"Aidan"`. -/
theorem userLabel_ne_aidan (x : String) : "User(" ++ x ++ ")" ≠ "Aidan" := by
  intro h
  have hl : ("User(" ++ x ++ ")").length = ("Aidan" : String).length :=
    congrArg String.length h
  rw [String.length_append, String.length_append] at hl
  have h1 : ("User(" : String).length = 5 := rfl
  have h2 : ((")" : String)).length = 1 := rfl
  have h3 : ("Aidan" : String).length = 5 := rfl
  omega

/-- With an empty configured secret, no credential resolves to the owner. -/
theorem identify_user_empty_secret (key : Option String) :
    identify_user key "" ≠ "Aidan" := by
  cases key with
  | none => simp [identify_user]
  | some k =>
      by_cases hk : k = ""
      · simp [identify_user, hk]
      · simpa [identify_user, hk] using userLabel_ne_aidan (pyTake6 k)

/-- C3: identity resolution is a pure total function of the credential
(`identify_user` takes only the credential and the configured secret and
touches no state, so determinism and side-effect-freeness hold by
construction).  Given a configured (non-empty) owner secret: a non-empty
credential whose `strip()` equals the secret's `strip()` resolves to the
owner; any other non-empty credential resolves to the guest labeled with
its first six characters; an absent credential resolves to `"Anonymous"`. -/
theorem identify_user_classification (secret : String) (hs : secret ≠ "") :
    (∀ k : String, k ≠ "" → pyStrip k = pyStrip secret →
        identify_user (some k) secret = "Aidan") ∧
    (∀ k : String, k ≠ "" → pyStrip k ≠ pyStrip secret →
        identify_user (some k) secret = "User(" ++ pyTake6 k ++ ")") ∧
    identify_user none secret = "Anonymous" := by
  refine ⟨?_, ?_, rfl⟩
  · intro k hk ht
    simp [identify_user, hk, hs, ht]
  · intro k hk ht
    simp [identify_user, hk, hs, ht]

/-- C3 witness: the classification at the concrete secret `"key42"`. -/
theorem identify_user_classification_witness :
    ("key42" : String) ≠ "" ∧
    ((∀ k : String, k ≠ "" → pyStrip k = pyStrip "key42" →
        identify_user (some k) "key42" = "Aidan") ∧
     (∀ k : String, k ≠ "" → pyStrip k ≠ pyStrip "key42" →
        identify_user (some k) "key42" = "User(" ++ pyTake6 k ++ ")") ∧
     identify_user none "key42" = "Anonymous") :=
  ⟨by decide, identify_user_classification "key42" (by decide)⟩

/-- C10: if the configured owner secret is the empty string, no credential
resolves to `"Aidan"`, every mutating playback call is queued without a
gateway call, and the owner-only endpoints always reject. -/
theorem empty_secret_owner_unreachable :
    (∀ key : Option String, identify_user key "" ≠ "Aidan") ∧
    (∀ (env : SpotifyEnv) (m : StateMap) (c : MutCall),
        gatewayCount (handleMut env "" m c).trace = 0) ∧
    (∀ (env : SpotifyEnv) (m : StateMap) (key : Option String),
        (Api.auth_start env "" m key).resp = Resp.err "only Aidan can initiate auth") ∧
    (∀ (env : SpotifyEnv) (m : StateMap) (code : String) (key : Option String),
        (Api.auth_callback env "" m code key).resp = Resp.httpError 403 "forbidden") ∧
    (∀ (env : SpotifyEnv) (m : StateMap) (limit : Nat) (key : Option String),
        (Api.fetch_logs env "" m limit key).resp = Resp.httpError 403 "forbidden") := by
  refine ⟨identify_user_empty_secret, ?_, ?_, ?_, ?_⟩
  · intro env m c
    obtain ⟨req, key, now⟩ := c
    cases req <;>
      simp [handleMut, Api.play, Api.play_track, Api.play_song_radio,
        identify_user_empty_secret key, gatewayCount, List.countP_cons,
        isGatewayEv]
  · intro env m key
    simp [Api.auth_start, identify_user_empty_secret key]
  · intro env m code key
    simp [Api.auth_callback, identify_user_empty_secret key]
  · intro env m limit key
    simp [Api.fetch_logs, identify_user_empty_secret key]

/-- C2: an owner mutating playback call leaves the whole `STATE` map (and
in particular the pending queue) untouched, answers with the gateway's
result verbatim, and its trace holds exactly one gateway call and no queue
append — for every gateway outcome, success or failure. -/
theorem owner_mut_gateway_once (env : SpotifyEnv) (secret : String)
    (m : StateMap) (c : MutCall) (h : identify_user c.key secret = "Aidan") :
    (handleMut env secret m c).state = m ∧
    (handleMut env secret m c).resp = Resp.gateway (mutGateway env c) ∧
    gatewayCount (handleMut env secret m c).trace = 1 ∧
    queueCount (handleMut env secret m c).trace = 0 := by
  obtain ⟨req, key, now⟩ := c
  cases req <;>
    simp [handleMut, Api.play, Api.play_track, Api.play_song_radio, mutGateway,
      h, gatewayCount, queueCount, List.countP_cons, isGatewayEv, isQueueEv]

/-- C2 witness: the theorem applied to an owner `/play` call (the oracle
`env0` makes the gateway succeed; the theorem itself quantifies over every
oracle, covering failure as well). -/
theorem owner_mut_gateway_once_witness :
    identify_user (some "key42") "key42" = "Aidan" ∧
    ((handleMut env0 "key42" [] { req := PlayReq.playlist "P1", key := some "key42", now := 0 }).state = [] ∧
     (handleMut env0 "key42" [] { req := PlayReq.playlist "P1", key := some "key42", now := 0 }).resp =
       Resp.gateway (mutGateway env0 { req := PlayReq.playlist "P1", key := some "key42", now := 0 }) ∧
     gatewayCount (handleMut env0 "key42" [] { req := PlayReq.playlist "P1", key := some "key42", now := 0 }).trace = 1 ∧
     queueCount (handleMut env0 "key42" [] { req := PlayReq.playlist "P1", key := some "key42", now := 0 }).trace = 0) :=
  ⟨by decide,
   owner_mut_gateway_once env0 "key42" []
     { req := PlayReq.playlist "P1", key := some "key42", now := 0 } (by decide)⟩

/-- C7: a request to `/auth/start` or `/logs` whose credential does not
resolve to the owner (including an absent credential) is rejected with a
permission error, leaves the `STATE` map untouched, and performs no side
effect at all — in particular no activity-log write. -/
theorem owner_only_endpoints_reject (env : SpotifyEnv) (secret : String)
    (m : StateMap) (key : Option String) (limit : Nat)
    (h : identify_user key secret ≠ "Aidan") :
    (Api.auth_start env secret m key).resp = Resp.err "only Aidan can initiate auth" ∧
    (Api.auth_start env secret m key).state = m ∧
    (Api.auth_start env secret m key).trace = [] ∧
    (Api.fetch_logs env secret m limit key).resp = Resp.httpError 403 "forbidden" ∧
    (Api.fetch_logs env secret m limit key).state = m ∧
    (Api.fetch_logs env secret m limit key).trace = [] := by
  simp [Api.auth_start, Api.fetch_logs, h]

/-- C7 witness: the theorem applied to a guest credential. -/
theorem owner_only_endpoints_reject_witness :
    identify_user (some "guestA") "key42" ≠ "Aidan" ∧
    ((Api.auth_start env0 "key42" [] (some "guestA")).resp = Resp.err "only Aidan can initiate auth" ∧
     (Api.auth_start env0 "key42" [] (some "guestA")).state = [] ∧
     (Api.auth_start env0 "key42" [] (some "guestA")).trace = [] ∧
     (Api.fetch_logs env0 "key42" [] 5 (some "guestA")).resp = Resp.httpError 403 "forbidden" ∧
     (Api.fetch_logs env0 "key42" [] 5 (some "guestA")).state = [] ∧
     (Api.fetch_logs env0 "key42" [] 5 (some "guestA")).trace = []) :=
  ⟨by decide,
   owner_only_endpoints_reject env0 "key42" [] (some "guestA") 5 (by decide)⟩

theorem applyTrace_failing (ts : Nat) (b : LogBackend) (hb : b.failing = true) :
    ∀ t : List Event, applyTrace ts b t = b := by
  intro t
  induction t with
  | nil => rfl
  | cons e rest ih =>
      cases e with
      | logWrite u a d => simpa [applyTrace, log_action, log_to_sqlite, hb] using ih
      | gatewayCall op arg => simpa [applyTrace] using ih
      | queueAppend o r => simpa [applyTrace] using ih
      | pushCall ti ms => simpa [applyTrace] using ih

/-- C8: the activity-log write never propagates an error: a handled
request run against a failing logging backend produces exactly the `STATE`
map and response it produces against any working backend, and the failing
backend itself is left unchanged (every write swallowed). -/
theorem logging_failure_invisible (env : SpotifyEnv) (secret : String)
    (b bGood : LogBackend) (m : StateMap) (req : Request)
    (key : Option String) (now : Nat) (hb : b.failing = true) :
    (handleRequest env secret b m req key now).2 =
      (handleRequest env secret bGood m req key now).2 ∧
    (handleRequest env secret b m req key now).1 = b := by
  refine ⟨rfl, ?_⟩
  simp [handleRequest, applyTrace_failing now b hb]

/-- C8 witness: a failing backend during a guest `/play` request. -/
theorem logging_failure_invisible_witness :
    ({ failing := true, rows := [] } : LogBackend).failing = true ∧
    ((handleRequest env0 "key42" { failing := true, rows := [] } [] (Request.play "P1") (some "guestA") 0).2 =
       (handleRequest env0 "key42" { failing := false, rows := [] } [] (Request.play "P1") (some "guestA") 0).2 ∧
     (handleRequest env0 "key42" { failing := true, rows := [] } [] (Request.play "P1") (some "guestA") 0).1 =
       { failing := true, rows := [] }) :=
  ⟨rfl,
   logging_failure_invisible env0 "key42" { failing := true, rows := [] }
     { failing := false, rows := [] } [] (Request.play "P1") (some "guestA") 0 rfl⟩

/-- C4 (amended): in every mutating playback handler the activity-log
write is the first side effect (index 0 of the trace) and the primary side
effect — queue append for a guest, gateway call for the owner — comes
after it (index 1): the handlers call `log_action` before branching. -/
theorem log_write_first_in_mut (env : SpotifyEnv) (secret : String)
    (m : StateMap) (c : MutCall) :
    (handleMut env secret m c).trace.findIdx? isLogEv = some 0 ∧
    (handleMut env secret m c).trace.findIdx? isPrimaryEv = some 1 := by
  obtain ⟨req, key, now⟩ := c
  cases req <;> by_cases h : identify_user key secret = "Aidan" <;>
    simp [handleMut, Api.play, Api.play_track, Api.play_song_radio, h,
      List.findIdx?, isLogEv, isPrimaryEv, isGatewayEv, isQueueEv]

/-- C4 counterexample: for a concrete guest `/play_track` request the
primary side effect (the queue append) does NOT precede the activity-log
write — the log write is at index 0 and the queue append at index 1. -/
theorem c4_primary_before_log_false :
    primary_precedes_log
      (Api.play_track env0 "key42" [] "T1" (some "guestA") 0).trace = false := by
  decide

/-- C9 (amended): every handled `GET` request writes exactly one
activity-log entry — all eighteen logging-instrumented handlers (`/`,
`/notify`, `/song`, `/play`, `/play_song_radio`, `/next`, `/play_track`,
`/resume`, `/search`, `/recommend`, `/create_playlist`,
`/add_to_playlist`, `/pause`, `/previous`, `/volume`, `/me`, `/playlists`,
`/playlist_tracks`) call `log_action` exactly once — except that
`/auth/start`, `/auth/callback` and `/logs` (and `HEAD /`) contain no
`log_action` call and write none. -/
theorem log_once_per_logged_request (env : SpotifyEnv) (secret : String)
    (m : StateMap) (key : Option String) (now : Nat)
    (msg code playlist song track query name description pid uris : String)
    (seed_tracks seed_artists seed_genres : Option String)
    (pub : Bool) (level limit : Nat) :
    (logCount (Api.root secret m key).trace = 1 ∧
     logCount (Api.notify env secret m msg key).trace = 1 ∧
     logCount (Api.current_song env secret m key now).trace = 1 ∧
     logCount (Api.play env secret m playlist key now).trace = 1 ∧
     logCount (Api.play_song_radio env secret m song key now).trace = 1 ∧
     logCount (Api.next_track secret m key).trace = 1 ∧
     logCount (Api.play_track env secret m track key now).trace = 1 ∧
     logCount (Api.resume env secret m key).trace = 1 ∧
     logCount (Api.search env secret m query key).trace = 1 ∧
     logCount (Api.recommend env secret m seed_tracks seed_artists seed_genres
        limit key).trace = 1 ∧
     logCount (Api.create_playlist env secret m name description pub key).trace = 1 ∧
     logCount (Api.add_to_playlist env secret m pid uris key).trace = 1 ∧
     logCount (Api.pause env secret m key).trace = 1 ∧
     logCount (Api.previous env secret m key).trace = 1 ∧
     logCount (Api.volume env secret m level key).trace = 1 ∧
     logCount (Api.me env secret m key).trace = 1 ∧
     logCount (Api.playlists env secret m limit key).trace = 1 ∧
     logCount (Api.playlist_tracks env secret m pid key).trace = 1) ∧
    (logCount (Api.head_root m).trace = 0 ∧
     logCount (Api.auth_start env secret m key).trace = 0 ∧
     logCount (Api.auth_callback env secret m code key).trace = 0 ∧
     logCount (Api.fetch_logs env secret m limit key).trace = 0) := by
  have hone : ∀ u a d, logCount [Event.logWrite u a d] = 1 := by
    intro u a d
    simp [logCount, List.countP_cons, isLogEv]
  have happ : ∀ u a d o r,
      logCount [Event.logWrite u a d, Event.queueAppend o r] = 1 := by
    intro u a d o r
    simp [logCount, List.countP_cons, isLogEv]
  have hlg : ∀ u a d op arg,
      logCount [Event.logWrite u a d, Event.gatewayCall op arg] = 1 := by
    intro u a d op arg
    simp [logCount, List.countP_cons, isLogEv]
  have hgw : ∀ u a d op arg,
      logCount [Event.gatewayCall op arg, Event.logWrite u a d] = 1 := by
    intro u a d op arg
    simp [logCount, List.countP_cons, isLogEv]
  refine ⟨⟨?_, ?_, ?_, ?_, ?_, ?_, ?_, ?_, ?_, ?_, ?_, ?_, ?_, ?_, ?_, ?_, ?_, ?_⟩,
    ?_, ?_, ?_, ?_⟩
  · simp [Api.root, logCount, List.countP_cons, isLogEv]
  · cases h : env.notifyResult <;>
      simp [Api.notify, h, logCount, List.countP_cons, isLogEv]
  · by_cases h : identify_user key secret = "Aidan" <;>
      simp only [Api.current_song] <;> split <;> simp [h, hgw]
  · by_cases h : identify_user key secret = "Aidan" <;>
      simp [Api.play, h, happ, hlg]
  · by_cases h : identify_user key secret = "Aidan" <;>
      simp [Api.play_song_radio, h, happ, hlg]
  · simp [Api.next_track, hone]
  · by_cases h : identify_user key secret = "Aidan" <;>
      simp [Api.play_track, h, happ, hlg]
  · simp [Api.resume, hlg]
  · cases h : Spotify.search_tracks env <;> simp [Api.search, h, hlg]
  · simp [Api.recommend, hlg]
  · simp [Api.create_playlist, hlg]
  · simp [Api.add_to_playlist, hlg]
  · simp [Api.pause, hlg]
  · simp [Api.previous, hlg]
  · simp [Api.volume, hlg]
  · simp [Api.me, hlg]
  · simp [Api.playlists, hlg]
  · simp [Api.playlist_tracks, hlg]
  · simp [Api.head_root, logCount]
  · by_cases h : identify_user key secret = "Aidan" <;>
      simp [Api.auth_start, h, logCount, List.countP_cons, isLogEv]
  · by_cases h : identify_user key secret = "Aidan"
    · cases ht : env.tokenResult <;>
        simp [Api.auth_callback, h, ht, logCount, List.countP_cons, isLogEv]
    · simp [Api.auth_callback, h, logCount]
  · by_cases h : identify_user key secret = "Aidan"
    · cases hd : env.dbExists <;> cases hq : env.logQueryResult <;>
        simp [Api.fetch_logs, h, hd, hq, logCount]
    · simp [Api.fetch_logs, h, logCount]

/-- C9 counterexample: a fully handled owner request to `/auth/start`
writes zero activity-log entries, not one. -/
theorem c9_auth_start_writes_no_log :
    logCount (Api.auth_start env0 "key42" [] (some "key42")).trace = 0 ∧
    (0 : Nat) ≠ 1 := by
  constructor
  · decide
  · decide

/-- C6: when the gateway reports a playing track (both name and artist
non-empty), `/song` as the owner rewrites the owner state's `last_played`
to that track and sets `online`; as a non-owner it returns the very same
`STATE` map. -/
theorem current_song_presence (env : SpotifyEnv) (secret : String)
    (m : StateMap) (key : Option String) (now : Nat) (s a : String)
    (hcs : env.currentSong = (some s, some a)) (hs : s ≠ "") (ha : a ≠ "") :
    (identify_user key secret = "Aidan" →
      lookupState (Api.current_song env secret m key now).state "Aidan" =
        { lookupState m "Aidan" with
          last_played := some { track := s, timestamp := now },
          online := true } ∧
      (Api.current_song env secret m key now).resp = Resp.songInfo s a) ∧
    (identify_user key secret ≠ "Aidan" →
      (Api.current_song env secret m key now).state = m) := by
  constructor
  · intro h
    constructor
    · simp [Api.current_song, hcs, h, optTruthy, hs, ha,
        lookupState_set_online, lookupState_set_last_played]
    · simp [Api.current_song, hcs, h, optTruthy, hs, ha]
  · intro h
    simp [Api.current_song, hcs, h, optTruthy, hs, ha]

/-- C6 witness: the theorem applied at the concrete playing song of
`env0`, once as the owner and once as a guest. -/
theorem current_song_presence_witness :
    env0.currentSong = (some "SongA", some "ArtistB") ∧
    ("SongA" : String) ≠ "" ∧ ("ArtistB" : String) ≠ "" ∧
    identify_user (some "key42") "key42" = "Aidan" ∧
    (lookupState (Api.current_song env0 "key42" [] (some "key42") 5).state "Aidan" =
      { lookupState ([] : StateMap) "Aidan" with
        last_played := some { track := "SongA", timestamp := 5 },
        online := true } ∧
     (Api.current_song env0 "key42" [] (some "key42") 5).resp =
       Resp.songInfo "SongA" "ArtistB") ∧
    identify_user (some "guestA") "key42" ≠ "Aidan" ∧
    (Api.current_song env0 "key42" [] (some "guestA") 5).state = [] :=
  ⟨rfl, by decide, by decide, by decide,
   (current_song_presence env0 "key42" [] (some "key42") 5 "SongA" "ArtistB"
      rfl (by decide) (by decide)).1 (by decide),
   by decide,
   (current_song_presence env0 "key42" [] (some "guestA") 5 "SongA" "ArtistB"
      rfl (by decide) (by decide)).2 (by decide)⟩

/-- C5 counterexample: after the guest with credential `"abc123xyz"`
requests `/play_track?track=T1` against an empty queue, the queued
record's `requested_by` field is `"User(abc123)"`, which is not the
`"Guest(abc123)"` the claim states. -/
theorem c5_requester_label_not_guest :
    (lookupState (Api.play_track env0 "key42" [] "T1" (some "abc123xyz") 7).state
        "Aidan").queue =
      [{ uri := "T1", name := "track", requested_by := "User(abc123)",
         added_at := 7 }] ∧
    ("User(abc123)" : String) ≠ "Guest(abc123)" := by
  constructor
  · decide
  · decide

/-- C5 (amended): for any secret under which `"abc123xyz"` is not the
owner, the guest `/play_track?track=T1` request against an empty queue
makes no gateway call and leaves exactly one queued record
`{uri: "T1", name: "track", requested_by: "User(abc123)"}`, answering with
`queue_length = 1` and that single-record queue. -/
theorem guest_play_track_scenario (env : SpotifyEnv) (secret : String)
    (now : Nat) (h : identify_user (some "abc123xyz") secret ≠ "Aidan") :
    gatewayCount (Api.play_track env secret [] "T1" (some "abc123xyz") now).trace = 0 ∧
    (lookupState (Api.play_track env secret [] "T1" (some "abc123xyz") now).state
        "Aidan").queue =
      [{ uri := "T1", name := "track", requested_by := "User(abc123)",
         added_at := now }] ∧
    (Api.play_track env secret [] "T1" (some "abc123xyz") now).resp =
      Resp.queued ("User(abc123)" ++ " requested track. Added to Aidan's queue.") 1
        [{ uri := "T1", name := "track", requested_by := "User(abc123)",
           added_at := now }] := by
  have htk : ("User(" ++ pyTake6 "abc123xyz" ++ ")" : String) = "User(abc123)" := by
    decide
  have hid : identify_user (some "abc123xyz") secret = "User(abc123)" := by
    by_cases hc : ("abc123xyz" : String) ≠ "" ∧ secret ≠ "" ∧
        pyStrip "abc123xyz" = pyStrip secret
    · exact absurd (by simp only [identify_user]; exact if_pos hc) h
    · calc identify_user (some "abc123xyz") secret
          = if ("abc123xyz" : String) ≠ "" then
              "User(" ++ pyTake6 "abc123xyz" ++ ")"
            else "Anonymous" := by
            simp only [identify_user]; exact if_neg hc
        _ = "User(abc123)" := by
            rw [if_pos (by decide : ("abc123xyz" : String) ≠ "")]; exact htk
  simp [Api.play_track, hid, add_to_queue, lookupState_setState_same,
    gatewayCount, List.countP_cons, isGatewayEv, lookupState, initUserState]

/-- C5 witness: the amended scenario at the concrete secret `"key42"`. -/
theorem guest_play_track_scenario_witness :
    identify_user (some "abc123xyz") "key42" ≠ "Aidan" ∧
    (gatewayCount (Api.play_track env0 "key42" [] "T1" (some "abc123xyz") 7).trace = 0 ∧
     (lookupState (Api.play_track env0 "key42" [] "T1" (some "abc123xyz") 7).state
         "Aidan").queue =
       [{ uri := "T1", name := "track", requested_by := "User(abc123)",
          added_at := 7 }] ∧
     (Api.play_track env0 "key42" [] "T1" (some "abc123xyz") 7).resp =
       Resp.queued ("User(abc123)" ++ " requested track. Added to Aidan's queue.") 1
         [{ uri := "T1", name := "track", requested_by := "User(abc123)",
            added_at := 7 }]) :=
  ⟨by decide, guest_play_track_scenario env0 "key42" 7 (by decide)⟩

theorem handleMut_guest (env : SpotifyEnv) (secret : String) (m : StateMap)
    (c : MutCall) (h : identify_user c.key secret ≠ "Aidan") :
    (handleMut env secret m c).state =
      setState m "Aidan"
        { lookupState m "Aidan" with
          queue := (lookupState m "Aidan").queue ++ [mutRecord secret c] } ∧
    (handleMut env secret m c).resp =
      Resp.queued (mutMsg secret c)
        ((lookupState m "Aidan").queue.length + 1)
        ((lookupState m "Aidan").queue ++ [mutRecord secret c]) ∧
    gatewayCount (handleMut env secret m c).trace = 0 ∧
    queueCount (handleMut env secret m c).trace = 1 := by
  obtain ⟨req, key, now⟩ := c
  cases req <;>
    simp [handleMut, Api.play, Api.play_track, Api.play_song_radio, h,
      add_to_queue, mutRecord, mutMsg, lookupState_setState_same,
      gatewayCount, queueCount, List.countP_cons, isGatewayEv, isQueueEv]

theorem runSeq_guest_invariant (env : SpotifyEnv) (secret : String) :
    ∀ (cs : List MutCall) (m : StateMap),
      (∀ c ∈ cs, identify_user c.key secret ≠ "Aidan") →
      (lookupState (runSeq env secret m cs).1 "Aidan").queue =
          (lookupState m "Aidan").queue ++ cs.map (mutRecord secret) ∧
      (∀ o ∈ (runSeq env secret m cs).2,
          gatewayCount o.trace = 0 ∧ queueCount o.trace = 1) ∧
      (∀ i c, cs.get? i = some c →
          ∃ o, (runSeq env secret m cs).2.get? i = some o ∧
            o.resp = Resp.queued (mutMsg secret c)
              ((lookupState m "Aidan").queue.length + i + 1)
              ((lookupState m "Aidan").queue ++
                ((cs.take (i + 1)).map (mutRecord secret)))) := by
  intro cs
  induction cs with
  | nil =>
      intro m _
      refine ⟨by simp [runSeq], by simp [runSeq], ?_⟩
      intro i c hc
      simp [List.get?] at hc
  | cons c cs ih =>
      intro m hall
      have hc : identify_user c.key secret ≠ "Aidan" := hall c (by simp)
      have hcs : ∀ c2 ∈ cs, identify_user c2.key secret ≠ "Aidan" :=
        fun c2 h2 => hall c2 (by simp [h2])
      obtain ⟨hstate, hresp, hgw, hqc⟩ := handleMut_guest env secret m c hc
      have hq1 : (lookupState (handleMut env secret m c).state "Aidan").queue =
          (lookupState m "Aidan").queue ++ [mutRecord secret c] := by
        rw [hstate, lookupState_setState_same]
      obtain ⟨ihq, ihtr, ihidx⟩ := ih (handleMut env secret m c).state hcs
      refine ⟨?_, ?_, ?_⟩
      · simp only [runSeq]
        rw [ihq, hq1]
        simp [List.append_assoc]
      · intro o ho
        simp only [runSeq, List.mem_cons] at ho
        rcases ho with ho | ho
        · subst ho; exact ⟨hgw, hqc⟩
        · exact ihtr o ho
      · intro i cc hcc
        cases i with
        | zero =>
            simp only [List.get?] at hcc
            injection hcc with hcc
            subst hcc
            refine ⟨handleMut env secret m c, by simp [runSeq], ?_⟩
            rw [hresp]
            simp
        | succ i =>
            simp only [List.get?] at hcc
            obtain ⟨o2, ho2, hro2⟩ := ihidx i cc hcc
            refine ⟨o2, by simp only [runSeq, List.get?]; exact ho2, ?_⟩
            rw [hro2]
            have hlen : (lookupState (handleMut env secret m c).state "Aidan").queue.length + i + 1 =
                (lookupState m "Aidan").queue.length + (i + 1) + 1 := by
              rw [hq1]; simp [List.length_append]; omega
            have htake : (lookupState (handleMut env secret m c).state "Aidan").queue ++
                ((cs.take (i + 1)).map (mutRecord secret)) =
                (lookupState m "Aidan").queue ++
                  (((c :: cs).take (i + 1 + 1)).map (mutRecord secret)) := by
              rw [hq1]
              simp [List.take_succ_cons, List.append_assoc]
            rw [hlen, htake]

/-- C1: starting from a fresh state, any sequence of mutating playback
calls whose credentials all resolve to non-owners makes no gateway call,
appends exactly one record per call, and answers the i-th call with
`queue_length = i + 1` and the full queue so far in FIFO arrival order. -/
theorem guest_mut_queue_fifo (env : SpotifyEnv) (secret : String)
    (cs : List MutCall)
    (h : ∀ c ∈ cs, identify_user c.key secret ≠ "Aidan") :
    (lookupState (runSeq env secret [] cs).1 "Aidan").queue =
        cs.map (mutRecord secret) ∧
    (∀ o ∈ (runSeq env secret [] cs).2,
        gatewayCount o.trace = 0 ∧ queueCount o.trace = 1) ∧
    (∀ i c, cs.get? i = some c →
        ∃ o, (runSeq env secret [] cs).2.get? i = some o ∧
          o.resp = Resp.queued (mutMsg secret c) (i + 1)
            ((cs.take (i + 1)).map (mutRecord secret))) := by
  obtain ⟨h1, h2, h3⟩ := runSeq_guest_invariant env secret cs [] h
  refine ⟨by simpa [lookupState, initUserState] using h1, h2, ?_⟩
  intro i c hc
  obtain ⟨o, ho, hr⟩ := h3 i c hc
  exact ⟨o, ho, by simpa [lookupState, initUserState] using hr⟩

/-- C1 witness: the interleaving guest A, guest B, guest A of `csW`
(requests R1, R2, R3), applied to the theorem. -/
theorem guest_mut_queue_fifo_witness :
    (∀ c ∈ csW, identify_user c.key "key42" ≠ "Aidan") ∧
    ((lookupState (runSeq env0 "key42" [] csW).1 "Aidan").queue =
        csW.map (mutRecord "key42") ∧
     (∀ o ∈ (runSeq env0 "key42" [] csW).2,
        gatewayCount o.trace = 0 ∧ queueCount o.trace = 1) ∧
     (∀ i c, csW.get? i = some c →
        ∃ o, (runSeq env0 "key42" [] csW).2.get? i = some o ∧
          o.resp = Resp.queued (mutMsg "key42" c) (i + 1)
            ((csW.take (i + 1)).map (mutRecord "key42")))) :=
  ⟨by decide, guest_mut_queue_fifo env0 "key42" csW (by decide)⟩
